import Mathlib

/-!
Verification of the aggregation-and-classification core of the Kubernetes
MCP server (`k8s_mcp_server.py`).

Raw kubectl payloads are modelled as a small JSON value type; the results of
the external `kubectl`/`helm` invocations (exit code, parsed stdout) are the
inputs of the embedded functions, so every embedded function is a pure
function of the probe outcomes.  A Python exception escaping a function is
modelled as `Except.error`; an absorbed exception (a `try`/`except` block in
the source) is encoded at the catch site.
-/

/-- JSON values as produced by `json.loads` on kubectl output.  Numbers are
modelled as rationals (the source only ever meets integers here). -/
inductive Json where
  | null : Json
  | bool : Bool → Json
  | num : Rat → Json
  | str : String → Json
  | arr : List Json → Json
  | obj : List (String × Json) → Json

/-- Association lookup in a JSON object's field list (first match, as in a
Python dict whose keys are unique). -/
def jlookup : List (String × Json) → String → Option Json
  | [], _ => none
  | (k, v) :: rest, key => if k = key then some v else jlookup rest key

/-- `x[k]` on a JSON value: raises `KeyError` when the key is absent and
`TypeError` when the value is not an object. -/
def jget (j : Json) (k : String) : Except String Json :=
  match j with
  | Json.obj fl =>
    match jlookup fl k with
    | some v => Except.ok v
    | none => Except.error ("KeyError: " ++ k)
  | _ => Except.error "TypeError"

/-- `x.get(k, d)` on a JSON object: total on objects, `AttributeError`
otherwise. -/
def jgetD (j : Json) (k : String) (d : Json) : Except String Json :=
  match j with
  | Json.obj fl =>
    match jlookup fl k with
    | some v => Except.ok v
    | none => Except.ok d
  | _ => Except.error "AttributeError"

/-- Python `str()` rendering of a JSON value, used where the source
interpolates a payload value into a string.  Exact only for strings, which is
the only case the source ever meets. -/
def Json.display : Json → String
  | Json.null => "None"
  | Json.bool true => "True"
  | Json.bool false => "False"
  | Json.num q => toString q
  | Json.str s => s
  | Json.arr _ => "[...]"
  | Json.obj _ => "{...}"

/-- `j == "s"` for a string literal: Python equality between a JSON value and
a string is `False` (not an error) when the value is not a string. -/
def jIsStr (j : Json) (s : String) : Bool :=
  match j with
  | Json.str t => t == s
  | _ => false

/-- `NodeMetrics` dataclass. -/
structure NodeMetrics where
  name : String
  cpu_usage : String
  memory_usage : String
  disk_usage : String
  status : String
  age : String
  version : String
  instance_type : Option String
  zone : Option String
  deriving DecidableEq, Repr

/-- `PodMetrics` dataclass. -/
structure PodMetrics where
  name : String
  namespace' : String
  status : String
  cpu_usage : String
  memory_usage : String
  restarts : Nat
  age : String
  node : String
  deriving DecidableEq, Repr

/-- `ClusterHealth` dataclass.  The utilization floats are modelled as
rationals; the source only ever stores `0.0` in them. -/
structure ClusterHealth where
  overall_status : String
  node_count : Nat
  healthy_nodes : Nat
  unhealthy_nodes : Nat
  total_pods : Nat
  running_pods : Nat
  pending_pods : Nat
  failed_pods : Nat
  cpu_utilization : Rat
  memory_utilization : Rat
  disk_utilization : Rat
  critical_issues : List String
  warnings : List String
  recommendations : List String
  deriving DecidableEq, Repr

/-- `KubernetesClient.analyze_cluster_health`, as a pure function of the
node and pod records it derives its verdict from (the records are fetched by
the two normalizers; the analysis itself reads nothing else). -/
def analyze_cluster_health (nodes : List NodeMetrics) (pods : List PodMetrics) :
    ClusterHealth :=
  let healthy_nodes := (nodes.filter (fun n => n.status == "Ready")).length
  let unhealthy_nodes := nodes.length - healthy_nodes
  let running_pods := (pods.filter (fun p => p.status == "Running")).length
  let pending_pods := (pods.filter (fun p => p.status == "Pending")).length
  let failed_pods :=
    (pods.filter (fun p => p.status == "Failed" || p.status == "CrashLoopBackOff")).length
  let high_restart_pods := pods.filter (fun p => p.restarts > 5)
  let critical_issues :=
    (if unhealthy_nodes > 0 then [s!"{unhealthy_nodes} nodes are not ready"] else []) ++
    (if failed_pods > 0 then [s!"{failed_pods} pods are in failed state"] else [])
  let warnings :=
    (if pending_pods > 0 then [s!"{pending_pods} pods are pending"] else []) ++
    (if high_restart_pods.length > 0 then
      [s!"{high_restart_pods.length} pods have high restart counts"] else [])
  let recommendations :=
    (if unhealthy_nodes > 0 then
      ["Investigate unhealthy nodes and consider replacement"] else []) ++
    (if pending_pods > 0 then
      ["Check resource constraints and node availability"] else []) ++
    (if high_restart_pods.length > 0 then
      ["Investigate pods with high restart counts for stability issues"] else [])
  let overall_status :=
    if critical_issues.isEmpty then
      (if warnings.isEmpty then "Healthy" else "Warning")
    else "Critical"
  { overall_status := overall_status
    node_count := nodes.length
    healthy_nodes := healthy_nodes
    unhealthy_nodes := unhealthy_nodes
    total_pods := pods.length
    running_pods := running_pods
    pending_pods := pending_pods
    failed_pods := failed_pods
    cpu_utilization := 0
    memory_utilization := 0
    disk_utilization := 0
    critical_issues := critical_issues
    warnings := warnings
    recommendations := recommendations }

lemma status_ite_flip (ci w : List String) :
    (if ci.isEmpty then (if w.isEmpty then "Healthy" else "Warning") else "Critical") =
      (if ci ≠ [] then "Critical" else if w ≠ [] then "Warning" else "Healthy") := by
  rcases ci <;> rcases w <;> simp

/-- C1: the overall status of `analyze_cluster_health` is Critical iff the
critical-issues list is non-empty, else Warning iff the warnings list is
non-empty, else Healthy — the status is a function of the two lists. -/
theorem c1_overall_status_derived (nodes : List NodeMetrics) (pods : List PodMetrics) :
    (analyze_cluster_health nodes pods).overall_status =
      (if (analyze_cluster_health nodes pods).critical_issues ≠ [] then "Critical"
       else if (analyze_cluster_health nodes pods).warnings ≠ [] then "Warning"
       else "Healthy") := by
  simp only [analyze_cluster_health]
  exact status_ite_flip _ _

/-- C8: node count bookkeeping and criticality of unhealthy nodes. -/
theorem c8_node_counts (nodes : List NodeMetrics) (pods : List PodMetrics) :
    (analyze_cluster_health nodes pods).healthy_nodes +
        (analyze_cluster_health nodes pods).unhealthy_nodes =
      (analyze_cluster_health nodes pods).node_count ∧
    ((analyze_cluster_health nodes pods).unhealthy_nodes > 0 →
      (analyze_cluster_health nodes pods).overall_status = "Critical") := by
  constructor
  · simp only [analyze_cluster_health]
    exact Nat.add_sub_cancel' (List.length_filter_le _ _)
  · intro h
    simp only [analyze_cluster_health] at h ⊢
    rw [if_pos h]
    simp

theorem c8_node_counts_wit :
    (analyze_cluster_health
        [{ name := "n1", cpu_usage := "N/A", memory_usage := "N/A", disk_usage := "N/A",
           status := "NotReady", age := "1d", version := "v1.29", instance_type := none,
           zone := none }] []).overall_status = "Critical" := by
  have h := c8_node_counts
    [{ name := "n1", cpu_usage := "N/A", memory_usage := "N/A", disk_usage := "N/A",
       status := "NotReady", age := "1d", version := "v1.29", instance_type := none,
       zone := none }] []
  exact h.2 (by decide)

/-- C9: the high-restart threshold is strict at 5: the warning (and the
restart-investigation recommendation) is appended exactly when some pod has
more than 5 restarts, a pod with exactly 5 restarts is never in the
high-restart set, and a pod with 6 restarts always is. -/
theorem c9_restart_threshold (nodes : List NodeMetrics) (pods : List PodMetrics) :
    (analyze_cluster_health nodes pods).warnings =
      (let pending := (pods.filter (fun p => p.status == "Pending")).length
       let hi := (pods.filter (fun p => p.restarts > 5)).length
       (if pending > 0 then [s!"{pending} pods are pending"] else []) ++
       (if hi > 0 then [s!"{hi} pods have high restart counts"] else [])) ∧
    ("Investigate pods with high restart counts for stability issues" ∈
        (analyze_cluster_health nodes pods).recommendations ↔
      pods.filter (fun p => p.restarts > 5) ≠ []) ∧
    (∀ p : PodMetrics, p.restarts = 5 → p ∉ pods.filter (fun p => p.restarts > 5)) ∧
    (∀ p : PodMetrics, p ∈ pods → p.restarts = 6 →
      p ∈ pods.filter (fun p => p.restarts > 5)) := by
  refine ⟨rfl, ?_, ?_, ?_⟩
  · simp only [analyze_cluster_health, List.mem_append, ne_eq, ← List.length_pos_iff_ne_nil]
    constructor
    · rintro ((h | h) | h) <;> first
        | (rcases Nat.decLt 0 _ with hl | hl
           · simp [Nat.not_lt.mp hl] at h
           · exact hl)
        | (revert h; split <;> simp_all)
    · intro h
      right
      simp [h]
  · intro p hp
    simp [hp]
  · intro p hp h6
    simp [List.mem_filter, hp, h6]

theorem c9_restart_threshold_wit :
    ({ name := "p5", namespace' := "default", status := "Running", cpu_usage := "N/A",
       memory_usage := "N/A", restarts := 5, age := "1h", node := "n1" } : PodMetrics) ∉
      ([({ name := "p5", namespace' := "default", status := "Running", cpu_usage := "N/A",
           memory_usage := "N/A", restarts := 5, age := "1h", node := "n1" } : PodMetrics)].filter
        (fun p => p.restarts > 5)) ∧
    ({ name := "p6", namespace' := "default", status := "Running", cpu_usage := "N/A",
       memory_usage := "N/A", restarts := 6, age := "1h", node := "n1" } : PodMetrics) ∈
      ([({ name := "p6", namespace' := "default", status := "Running", cpu_usage := "N/A",
           memory_usage := "N/A", restarts := 6, age := "1h", node := "n1" } : PodMetrics)].filter
        (fun p => p.restarts > 5)) := by
  constructor
  · exact (c9_restart_threshold []
      [{ name := "p5", namespace' := "default", status := "Running", cpu_usage := "N/A",
         memory_usage := "N/A", restarts := 5, age := "1h", node := "n1" }]).2.2.1 _ rfl
  · exact (c9_restart_threshold []
      [{ name := "p6", namespace' := "default", status := "Running", cpu_usage := "N/A",
         memory_usage := "N/A", restarts := 6, age := "1h", node := "n1" }]).2.2.2 _
      (by simp) rfl

/-! ## Node / pod normalizers (`get_nodes_metrics`, `get_pods_metrics`)

The external inputs are the kubectl listing call's exit code combined with
the `json.loads` outcome of its stdout (`Except.error` = `JSONDecodeError`),
the `kubectl top` call's exit code and raw stdout, and the age calculator
(`_calculate_age` is total — it catches every exception and returns
`"Unknown"` — so it enters the model as a function argument).  The per-item
field extraction, whose lookups can raise, is split into a `…Core` extractor
carrying every failure point in source order; per-record assembly from the
extracted core is total. -/

/-- Iterating a JSON value as a list (`TypeError` otherwise). -/
def asArr (j : Json) : Except String (List Json) :=
  match j with
  | Json.arr l => Except.ok l
  | _ => Except.error "TypeError"

/-- `x.get(k)` (no default) on a JSON object: `None` when absent,
`AttributeError` when the value is not an object. -/
def pyGetOpt (j : Json) (k : String) : Except String (Option Json) :=
  match j with
  | Json.obj fl => Except.ok (jlookup fl k)
  | _ => Except.error "AttributeError"

/-- `data.get('items', [])` followed by iteration of the result. -/
def jgetItemsD (j : Json) : Except String (List Json) :=
  match j with
  | Json.obj fl =>
    match jlookup fl "items" with
    | some (Json.arr l) => Except.ok l
    | some _ => Except.error "TypeError"
    | none => Except.ok []
  | _ => Except.error "AttributeError"

/-- One parsed `kubectl top` line: identity key, cpu, memory. -/
abbrev MetricsMap := List (String × String × String)

/-- Lookup in the metrics map; the Python dict overwrites on repeated keys,
so the last insertion wins. -/
def mmLookup (m : MetricsMap) (k : String) : Option (String × String) :=
  (m.reverse.find? (fun e => e.1 == k)).map (fun e => e.2)

/-- `metrics_map` built from `kubectl top nodes --no-headers` output
(lines split on whitespace, at least 3 fields, malformed lines skipped);
empty when the fetch exited non-zero. -/
def buildNodeMetricsMap (code : Int) (text : String) : MetricsMap :=
  if code = 0 then
    (text.trim.splitOn "\n").foldl (fun m line =>
      if line ≠ "" then
        let parts := (line.split Char.isWhitespace).filter (fun s => s ≠ "")
        if parts.length ≥ 3 then m ++ [(parts.getD 0 "", parts.getD 1 "", parts.getD 2 "")]
        else m
      else m) []
  else []

/-- `metrics_map` for pods: in the all-namespaces scope a line yields the key
`namespace:name` from its first two fields, otherwise the first field. -/
def buildPodMetricsMap (ns : String) (code : Int) (text : String) : MetricsMap :=
  if code = 0 then
    (text.trim.splitOn "\n").foldl (fun m line =>
      if line ≠ "" then
        let parts := (line.split Char.isWhitespace).filter (fun s => s ≠ "")
        if ns == "all" then
          if parts.length ≥ 4 then
            m ++ [(parts.getD 0 "" ++ ":" ++ parts.getD 1 "", parts.getD 2 "", parts.getD 3 "")]
          else m
        else
          if parts.length ≥ 3 then
            m ++ [(parts.getD 0 "", parts.getD 1 "", parts.getD 2 "")]
          else m
      else m) []
  else []

/-- The fallible per-node field extraction of the `get_nodes_metrics` loop,
in source order. -/
structure NodeCore where
  nameJ : Json
  ready : Bool
  tsJ : Json
  kverJ : Json
  instTypeJ : Option Json
  zoneJ : Option Json

/-- `any(condition['type'] == 'Ready' and condition['status'] == 'True' …)`:
short-circuiting, `condition['status']` only read when the type matches. -/
def anyReadyCond : List Json → Except String Bool
  | [] => Except.ok false
  | c :: rest => do
    let t ← jget c "type"
    if jIsStr t "Ready" then do
      let s ← jget c "status"
      if jIsStr s "True" then pure true else anyReadyCond rest
    else anyReadyCond rest

def nodeCore (n : Json) : Except String NodeCore := do
  let md ← jget n "metadata"
  let nameJ ← jget md "name"
  let st ← jget n "status"
  let condsJ ← jget st "conditions"
  let conds ← asArr condsJ
  let ready ← anyReadyCond conds
  let _tsCheck ← jget md "creationTimestamp"
  let ni ← jget st "nodeInfo"
  let kverJ ← jget ni "kubeletVersion"
  let labelsJ ← jgetD md "labels" (Json.obj [])
  let instTypeJ ← pyGetOpt labelsJ "node.kubernetes.io/instance-type"
  let zoneJ ← pyGetOpt labelsJ "topology.kubernetes.io/zone"
  pure ⟨nameJ, ready, _tsCheck, kverJ, instTypeJ, zoneJ⟩

/-- Total assembly of a `NodeMetrics` record from the extracted fields, the
metrics map, and the age calculator. -/
def nodeRecordOf (mm : MetricsMap) (calcAge : Json → String) (c : NodeCore) :
    NodeMetrics :=
  let key : Option String := match c.nameJ with | Json.str s => some s | _ => none
  let usage := match key with | some k => mmLookup mm k | none => none
  { name := c.nameJ.display
    cpu_usage := (usage.map (fun u => u.1)).getD "N/A"
    memory_usage := (usage.map (fun u => u.2)).getD "N/A"
    disk_usage := "N/A"
    status := if c.ready then "Ready" else "NotReady"
    age := calcAge c.tsJ
    version := c.kverJ.display
    instance_type := c.instTypeJ.map Json.display
    zone := c.zoneJ.map Json.display }

def processNode (mm : MetricsMap) (calcAge : Json → String) (n : Json) :
    Except String NodeMetrics :=
  (nodeCore n).map (nodeRecordOf mm calcAge)

def nodeCores : List Json → Except String (List NodeCore)
  | [] => Except.ok []
  | n :: rest =>
    match nodeCore n with
    | Except.error e => Except.error e
    | Except.ok c =>
      match nodeCores rest with
      | Except.error e => Except.error e
      | Except.ok cs => Except.ok (c :: cs)

def processNodes (mm : MetricsMap) (calcAge : Json → String) (items : List Json) :
    Except String (List NodeMetrics) :=
  (nodeCores items).map (List.map (nodeRecordOf mm calcAge))

/-- `KubernetesClient.get_nodes_metrics`, as a function of the listing fetch
outcome, the metrics fetch outcome, and the age calculator.  A non-zero
listing exit or a `JSONDecodeError` is absorbed into an empty result; any
other exception escapes as `Except.error`. -/
def get_nodes_metrics (code : Int) (payload : Except String Json)
    (mcode : Int) (mtext : String) (calcAge : Json → String) :
    Except String (List NodeMetrics) :=
  if code ≠ 0 then Except.ok []
  else
    match payload with
    | Except.error _ => Except.ok []
    | Except.ok data =>
      match jgetItemsD data with
      | Except.error e => Except.error e
      | Except.ok items => processNodes (buildNodeMetricsMap mcode mtext) calcAge items

/-- The fallible per-pod field extraction of the `get_pods_metrics` loop. -/
structure PodCore where
  nameJ : Json
  nsJ : Json
  phaseJ : Json
  restarts : Nat
  tsJ : Json
  nodeVal : Option Json

/-- `sum(cs.get('restartCount', 0) for cs in …)`; restart counts are JSON
integers (≥ 0) in every kubectl payload, modelled via `Nat`. -/
def sumRestarts : List Json → Except String Nat
  | [] => Except.ok 0
  | c :: rest => do
    let v ← jgetD c "restartCount" (Json.num 0)
    match v with
    | Json.num q =>
      let m ← sumRestarts rest
      pure (q.num.toNat + m)
    | _ => Except.error "TypeError"

def podCore (p : Json) : Except String PodCore := do
  let md ← jget p "metadata"
  let nameJ ← jget md "name"
  let nsJ ← jget md "namespace"
  let st ← jget p "status"
  let phaseJ ← jget st "phase"
  let csJ ← jgetD st "containerStatuses" (Json.arr [])
  let cs ← asArr csJ
  let restarts ← sumRestarts cs
  let _tsCheck ← jget md "creationTimestamp"
  let sp ← jget p "spec"
  let nodeVal ← pyGetOpt sp "nodeName"
  pure ⟨nameJ, nsJ, phaseJ, restarts, _tsCheck, nodeVal⟩

/-- Total assembly of a `PodMetrics` record; in the all-namespaces scope the
metrics key is the interpolated `namespace:name` string, otherwise the raw
name value (a non-string name can never match a metrics key). -/
def podRecordOf (ns : String) (mm : MetricsMap) (calcAge : Json → String)
    (c : PodCore) : PodMetrics :=
  let key : Option String :=
    if ns == "all" then some (c.nsJ.display ++ ":" ++ c.nameJ.display)
    else match c.nameJ with | Json.str s => some s | _ => none
  let usage := match key with | some k => mmLookup mm k | none => none
  { name := c.nameJ.display
    namespace' := c.nsJ.display
    status := c.phaseJ.display
    cpu_usage := (usage.map (fun u => u.1)).getD "N/A"
    memory_usage := (usage.map (fun u => u.2)).getD "N/A"
    restarts := c.restarts
    age := calcAge c.tsJ
    node := match c.nodeVal with | some v => v.display | none => "N/A" }

def processPod (ns : String) (mm : MetricsMap) (calcAge : Json → String) (p : Json) :
    Except String PodMetrics :=
  (podCore p).map (podRecordOf ns mm calcAge)

def podCores : List Json → Except String (List PodCore)
  | [] => Except.ok []
  | p :: rest =>
    match podCore p with
    | Except.error e => Except.error e
    | Except.ok c =>
      match podCores rest with
      | Except.error e => Except.error e
      | Except.ok cs => Except.ok (c :: cs)

def processPods (ns : String) (mm : MetricsMap) (calcAge : Json → String)
    (items : List Json) : Except String (List PodMetrics) :=
  (podCores items).map (List.map (podRecordOf ns mm calcAge))

/-- `KubernetesClient.get_pods_metrics`, parameterized by the namespace
scope (`"all"` or a specific namespace). -/
def get_pods_metrics (ns : String) (code : Int) (payload : Except String Json)
    (mcode : Int) (mtext : String) (calcAge : Json → String) :
    Except String (List PodMetrics) :=
  if code ≠ 0 then Except.ok []
  else
    match payload with
    | Except.error _ => Except.ok []
    | Except.ok data =>
      match jgetItemsD data with
      | Except.error e => Except.error e
      | Except.ok items => processPods ns (buildPodMetricsMap ns mcode mtext) calcAge items

/-! ## GitOps inspector (`get_argocd_status`)

The whole body runs under a blanket `except Exception`, so every internal
failure is absorbed: the status assembled so far (including applications
already appended) is returned. -/

structure ArgoApp where
  name : String
  health : String
  sync : String
  repo : String
  deriving DecidableEq, Repr

structure ArgoCDStatus where
  installed : Bool
  applications : List ArgoApp
  health_status : String
  sync_status : String
  deriving DecidableEq, Repr

/-- Per-application summary; `repoURL` is read with raising lookups, the
health/sync statuses with defaulting `.get` chains. -/
def argoAppInfo (app : Json) : Except String ArgoApp := do
  let md ← jget app "metadata"
  let nameJ ← jget md "name"
  let st ← jget app "status"
  let hJ ← jgetD st "health" (Json.obj [])
  let hv ← jgetD hJ "status" (Json.str "Unknown")
  let syJ ← jgetD st "sync" (Json.obj [])
  let sv ← jgetD syJ "status" (Json.str "Unknown")
  let sp ← jget app "spec"
  let src ← jget sp "source"
  let repoJ ← jget src "repoURL"
  pure ⟨nameJ.display, hv.display, sv.display, repoJ.display⟩

/-- The application loop: on an exception the applications appended so far
survive (the error aborts the loop, the blanket handler keeps the state). -/
def argoLoop : List Json → List ArgoApp → Nat → Nat →
    Except (List ArgoApp) (List ArgoApp × Nat × Nat)
  | [], acc, h, s => Except.ok (acc, h, s)
  | app :: rest, acc, h, s =>
    match argoAppInfo app with
    | Except.error _ => Except.error acc
    | Except.ok info =>
      argoLoop rest (acc ++ [info])
        (if info.health == "Healthy" then h + 1 else h)
        (if info.sync == "Synced" then s + 1 else s)

/-- `KubernetesClient.get_argocd_status`: total — no failure escapes. -/
def get_argocd_status (code : Int) (payload : Except String Json) : ArgoCDStatus :=
  if code ≠ 0 then ⟨false, [], "Unknown", "Unknown"⟩
  else
    match payload with
    | Except.error _ => ⟨true, [], "Unknown", "Unknown"⟩
    | Except.ok apps_data =>
      match jgetItemsD apps_data with
      | Except.error _ => ⟨true, [], "Unknown", "Unknown"⟩
      | Except.ok items =>
        match argoLoop items [] 0 0 with
        | Except.error partialApps => ⟨true, partialApps, "Unknown", "Unknown"⟩
        | Except.ok (apps, healthy, synced) =>
          if items.length > 0 then
            ⟨true, apps, s!"{healthy}/{items.length} Healthy",
              s!"{synced}/{items.length} Synced"⟩
          else ⟨true, apps, "Unknown", "Unknown"⟩

lemma isOk_map {α β : Type} (f : α → β) (e : Except String α) :
    (e.map f).isOk = e.isOk := by cases e <;> rfl

lemma nodeRecordOf_nil_na (calcAge : Json → String) (c : NodeCore) :
    (nodeRecordOf [] calcAge c).cpu_usage = "N/A" ∧
      (nodeRecordOf [] calcAge c).memory_usage = "N/A" := by
  rcases c with ⟨nameJ, r, ts, kv, it, z⟩
  cases nameJ <;> simp [nodeRecordOf, mmLookup]

lemma podRecordOf_nil_na (ns : String) (calcAge : Json → String) (c : PodCore) :
    (podRecordOf ns [] calcAge c).cpu_usage = "N/A" ∧
      (podRecordOf ns [] calcAge c).memory_usage = "N/A" := by
  rcases c with ⟨nameJ, nsJ, ph, r, ts, nv⟩
  by_cases hns : (ns == "all") = true
  · simp [podRecordOf, mmLookup, hns]
  · cases nameJ <;> simp [podRecordOf, mmLookup, hns]

/-- A node listing whose single item carries no fields at all. -/
def c3FailingPayload : Json := Json.obj [("items", Json.arr [Json.obj []])]

def constAge : Json → String := fun _ => "Unknown"

/-- C3 counterexample: a node-listing item lacking `metadata` makes
`get_nodes_metrics` raise a `KeyError` out of the invocation — the
surrounding handler only catches `json.JSONDecodeError`, so the failure is
not absorbed and no result is returned. -/
theorem c3_counterexample :
    get_nodes_metrics 0 (Except.ok c3FailingPayload) 1 "" constAge =
      Except.error "KeyError: metadata" := rfl

/-- C3 (amended): fetch failures and JSON-decode failures of the listings
are absorbed into empty results, the metrics snapshot never affects whether
construction succeeds, and the GitOps inspector absorbs a malformed payload;
but a listing item lacking `metadata` raises a `KeyError` out of the node
normalizer regardless of the remaining items. -/
theorem c3_failures_partially_absorbed :
    (∀ (code : Int) (e : String) (mc : Int) (ms : String) (calcAge : Json → String),
      get_nodes_metrics code (Except.error e) mc ms calcAge = Except.ok []) ∧
    (∀ (ns : String) (code : Int) (e : String) (mc : Int) (ms : String)
        (calcAge : Json → String),
      get_pods_metrics ns code (Except.error e) mc ms calcAge = Except.ok []) ∧
    (∀ (code : Int) (payload : Except String Json) (calcAge : Json → String)
        (mc : Int) (ms : String) (mc' : Int) (ms' : String),
      (get_nodes_metrics code payload mc ms calcAge).isOk =
        (get_nodes_metrics code payload mc' ms' calcAge).isOk) ∧
    (∀ e : String, get_argocd_status 0 (Except.error e) =
      ⟨true, [], "Unknown", "Unknown"⟩) ∧
    (∀ (rest : List Json) (mc : Int) (ms : String) (calcAge : Json → String),
      get_nodes_metrics 0
          (Except.ok (Json.obj [("items", Json.arr (Json.obj [] :: rest))]))
          mc ms calcAge =
        Except.error "KeyError: metadata") := by
  refine ⟨?_, ?_, ?_, ?_, ?_⟩
  · intro code e mc ms calcAge
    unfold get_nodes_metrics
    split <;> rfl
  · intro ns code e mc ms calcAge
    unfold get_pods_metrics
    split <;> rfl
  · intro code payload calcAge mc ms mc' ms'
    unfold get_nodes_metrics
    split
    · rfl
    · cases payload with
      | error e => rfl
      | ok data =>
        dsimp only
        cases h : jgetItemsD data with
        | error e => simp [h]
        | ok items => simp [h, processNodes, isOk_map]
  · intro e
    rfl
  · intro rest mc ms calcAge
    rfl

lemma nodeCores_length :
    ∀ {items : List Json} {cores : List NodeCore},
      nodeCores items = Except.ok cores → cores.length = items.length := by
  intro items
  induction items with
  | nil => intro cores hc; cases hc; rfl
  | cons n rest ih =>
    intro cores hc
    unfold nodeCores at hc
    revert hc
    cases nodeCore n with
    | error e => intro hc; cases hc
    | ok c =>
      cases hr : nodeCores rest with
      | error e => intro hc; cases hc
      | ok cs =>
        intro hc
        cases hc
        simp [ih hr]

/-- C4: absorption of usage-snapshot failures in the normalizers.  A
non-zero `kubectl top` exit yields an empty metrics map; whether the
normalizer succeeds and how many records it yields never depends on the
metrics inputs; with an empty metrics map every produced record carries
`"N/A"` usage; and a record whose identity misses the map gets `"N/A"` for
both usage fields of that record alone. -/
theorem c4_metrics_failure_degrades (code : Int) (payload : Except String Json)
    (calcAge : Json → String) (mc : Int) (ms : String) :
    (mc ≠ 0 → buildNodeMetricsMap mc ms = []) ∧
    (∀ (mc' : Int) (ms' : String),
      (get_nodes_metrics code payload mc ms calcAge).isOk =
        (get_nodes_metrics code payload mc' ms' calcAge).isOk) ∧
    (∀ (recs recs' : List NodeMetrics) (mc' : Int) (ms' : String),
      get_nodes_metrics code payload mc ms calcAge = Except.ok recs →
      get_nodes_metrics code payload mc' ms' calcAge = Except.ok recs' →
      recs.length = recs'.length) ∧
    (∀ (data : Json) (items : List Json) (recs : List NodeMetrics),
      payload = Except.ok data → jgetItemsD data = Except.ok items →
      get_nodes_metrics 0 (Except.ok data) mc ms calcAge = Except.ok recs →
      recs.length = items.length) ∧
    (buildNodeMetricsMap mc ms = [] →
      ∀ recs : List NodeMetrics,
        get_nodes_metrics code payload mc ms calcAge = Except.ok recs →
        ∀ r ∈ recs, r.cpu_usage = "N/A" ∧ r.memory_usage = "N/A") ∧
    (∀ (mm : MetricsMap) (n : Json) (r : NodeMetrics),
      processNode mm calcAge n = Except.ok r → mmLookup mm r.name = none →
      r.cpu_usage = "N/A" ∧ r.memory_usage = "N/A") ∧
    (∀ ns : String,
      (mc ≠ 0 → buildPodMetricsMap ns mc ms = []) ∧
      (∀ (mc' : Int) (ms' : String),
        (get_pods_metrics ns code payload mc ms calcAge).isOk =
          (get_pods_metrics ns code payload mc' ms' calcAge).isOk) ∧
      (buildPodMetricsMap ns mc ms = [] →
        ∀ recs : List PodMetrics,
          get_pods_metrics ns code payload mc ms calcAge = Except.ok recs →
          ∀ r ∈ recs, r.cpu_usage = "N/A" ∧ r.memory_usage = "N/A")) := by
  refine ⟨?_, ?_, ?_, ?_, ?_, ?_, ?_⟩
  · intro h
    simp [buildNodeMetricsMap, h]
  · intro mc' ms'
    unfold get_nodes_metrics
    split
    · rfl
    · cases payload with
      | error e => rfl
      | ok data =>
        dsimp only
        cases h : jgetItemsD data with
        | error e => simp [h]
        | ok items => simp [h, processNodes, isOk_map]
  · intro recs recs' mc' ms' h1 h2
    unfold get_nodes_metrics at h1 h2
    split at h1
    · cases h1; split at h2
      · cases h2; rfl
      · simp_all
    · split at h2
      · simp_all
      · cases payload with
        | error e => cases h1; cases h2; rfl
        | ok data =>
          dsimp only at h1 h2
          cases hi : jgetItemsD data with
          | error e => simp [hi] at h1
          | ok items =>
            simp only [hi] at h1 h2
            dsimp only [processNodes] at h1 h2
            cases hc : nodeCores items with
            | error e => simp [hc, Except.map] at h1
            | ok cores =>
              simp only [hc, Except.map] at h1 h2
              injection h1 with h1'
              injection h2 with h2'
              subst h1'
              subst h2'
              simp
  · intro data items recs hp hi h
    unfold get_nodes_metrics at h
    rw [if_neg (by decide : ¬((0 : Int) ≠ 0))] at h
    dsimp only at h
    simp only [hi] at h
    dsimp only [processNodes] at h
    cases hc : nodeCores items with
    | error e => simp [hc, Except.map] at h
    | ok cores =>
      simp only [hc, Except.map] at h
      injection h with h'
      subst h'
      simpa using nodeCores_length hc
  · intro hmap recs h r hr
    unfold get_nodes_metrics at h
    split at h
    · cases h; cases hr
    · cases payload with
      | error e => cases h; cases hr
      | ok data =>
        dsimp only at h
        cases hi : jgetItemsD data with
        | error e => simp [hi] at h
        | ok items =>
          simp only [hi] at h
          dsimp only [processNodes] at h
          rw [hmap] at h
          cases hc : nodeCores items with
          | error e => simp [hc, Except.map] at h
          | ok cores =>
            simp only [hc, Except.map] at h
            injection h with h'
            subst h'
            obtain ⟨c, _, rfl⟩ := List.mem_map.mp hr
            exact nodeRecordOf_nil_na calcAge c
  · intro mm n r h hmiss
    unfold processNode at h
    cases hc : nodeCore n with
    | error e => simp [hc, Except.map] at h
    | ok c =>
      simp only [hc, Except.map] at h
      injection h with h'
      subst h'
      rcases c with ⟨nameJ, rd, ts, kv, it, z⟩
      cases nameJ <;>
        simp_all [nodeRecordOf, Json.display]
  · intro ns
    refine ⟨?_, ?_, ?_⟩
    · intro h
      simp [buildPodMetricsMap, h]
    · intro mc' ms'
      unfold get_pods_metrics
      split
      · rfl
      · cases payload with
        | error e => rfl
        | ok data =>
          dsimp only
          cases h : jgetItemsD data with
          | error e => simp [h]
          | ok items => simp [h, processPods, isOk_map]
    · intro hmap recs h r hr
      unfold get_pods_metrics at h
      split at h
      · cases h; cases hr
      · cases payload with
        | error e => cases h; cases hr
        | ok data =>
          dsimp only at h
          cases hi : jgetItemsD data with
          | error e => simp [hi] at h
          | ok items =>
            simp only [hi] at h
            dsimp only [processPods] at h
            rw [hmap] at h
            cases hc : podCores items with
            | error e => simp [hc, Except.map] at h
            | ok cores =>
              simp only [hc, Except.map] at h
              injection h with h'
              subst h'
              obtain ⟨c, _, rfl⟩ := List.mem_map.mp hr
              exact podRecordOf_nil_na ns calcAge c

def c4SampleNode : Json := Json.obj [
  ("metadata", Json.obj [("name", Json.str "node-a"),
    ("creationTimestamp", Json.str "2024-01-01T00:00:00Z")]),
  ("status", Json.obj [
    ("conditions", Json.arr [Json.obj [("type", Json.str "Ready"),
      ("status", Json.str "True")]]),
    ("nodeInfo", Json.obj [("kubeletVersion", Json.str "v1.29.0")])])]

def c4SamplePayload : Json := Json.obj [("items", Json.arr [c4SampleNode])]

def c4SampleRec : NodeMetrics :=
  ⟨"node-a", "N/A", "N/A", "N/A", "Ready", "Unknown", "v1.29.0", none, none⟩

theorem c4_metrics_failure_degrades_wit :
    buildNodeMetricsMap 1 "" = [] ∧
    get_nodes_metrics 0 (Except.ok c4SamplePayload) 1 "" constAge =
      Except.ok [c4SampleRec] ∧
    (c4SampleRec.cpu_usage = "N/A" ∧ c4SampleRec.memory_usage = "N/A") := by
  refine ⟨rfl, rfl, ?_⟩
  exact (c4_metrics_failure_degrades 0 (Except.ok c4SamplePayload) constAge 1
    "").2.2.2.2.1 rfl [c4SampleRec] rfl c4SampleRec (by simp)

/-! ## Autoscaler inspector (`analyze_karpenter`)

Inputs are the three probe outcomes in source order: the karpenter
deployment fetch, the nodepools fetch, and the provisioned-nodes fetch
(each an exit code plus the `json.loads` outcome of its stdout).  The body
runs under a blanket `except Exception` that appends the error to the
`issues` list, so an exception keeps all fields already assigned; a
non-zero exit merely skips the corresponding `if` body. -/

structure NodePool where
  name : String
  instance_types : Json
  limits : Json

structure KarpenterAnalysis where
  installed : Bool
  version : Option String
  node_pools : List NodePool
  provisioned_nodes : Nat
  issues : List String
  recommendations : List String

def karpMsg (e : String) : String := "Error analyzing Karpenter: " ++ e

/-- Python `pat in s` substring test. -/
def strContains (s pat : String) : Bool :=
  s.data.tails.any (fun t => pat.data.isPrefixOf t)

/-- `str.split(c)` over the character list (splits at every occurrence,
keeping empty segments, as Python's one-argument `split` with a separator). -/
def splitOnChar (c : Char) : List Char → List (List Char)
  | [] => [[]]
  | x :: xs =>
    let r := splitOnChar c xs
    if x = c then [] :: r
    else
      match r with
      | h :: t => (x :: h) :: t
      | [] => [[x]]

/-- `image.split(':')[-1]`. -/
def splitLastColon (s : String) : String :=
  (((splitOnChar ':' s.data).map (fun l => String.mk l)).getLastD "")

def getContainers (d : Json) : Except String (List Json) := do
  let sp ← jget d "spec"
  let tpl ← jget sp "template"
  let sp2 ← jget tpl "spec"
  let cs ← jget sp2 "containers"
  asArr cs

/-- The version-extraction loop: first container whose image contains
"karpenter"; version is the text after the last colon. -/
def findKarpVersion : List Json → Except String (Option String)
  | [] => Except.ok none
  | c :: rest => do
    let img ← jget c "image"
    match img with
    | Json.str s =>
      if strContains s "karpenter" then pure (some (splitLastColon s))
      else findKarpVersion rest
    | _ => Except.error "TypeError"

/-- The nodepools list comprehension (each lookup can raise). -/
def buildPools : List Json → Except String (List NodePool)
  | [] => Except.ok []
  | np :: rest => do
    let md ← jget np "metadata"
    let nameJ ← jget md "name"
    let sp ← jget np "spec"
    let reqs ← jgetD sp "requirements" (Json.arr [])
    let lims ← jgetD sp "limits" (Json.obj [])
    let rest' ← buildPools rest
    pure (⟨nameJ.display, reqs, lims⟩ :: rest')

/-- Third probe: count of karpenter-provisioned nodes.  A non-zero exit
leaves the count at its default; a malformed payload raises into the
blanket handler, which appends the error to `issues`. -/
def karpNodesStep (v : Option String) (pools : List NodePool)
    (ndCode : Int) (ndPayload : Except String Json) : KarpenterAnalysis :=
  if ndCode = 0 then
    match ndPayload with
    | Except.error e => ⟨true, v, pools, 0, [karpMsg e], []⟩
    | Except.ok p =>
      match jgetItemsD p with
      | Except.error e => ⟨true, v, pools, 0, [karpMsg e], []⟩
      | Except.ok items => ⟨true, v, pools, items.length, [], []⟩
  else ⟨true, v, pools, 0, [], []⟩

/-- Second probe: nodepools listing, then fall through to the third probe
regardless of this probe's exit code. -/
def karpNodepoolsStep (v : Option String) (npCode : Int)
    (npPayload : Except String Json) (ndCode : Int)
    (ndPayload : Except String Json) : KarpenterAnalysis :=
  if npCode = 0 then
    match npPayload with
    | Except.error e => ⟨true, v, [], 0, [karpMsg e], []⟩
    | Except.ok p =>
      match jgetItemsD p with
      | Except.error e => ⟨true, v, [], 0, [karpMsg e], []⟩
      | Except.ok items =>
        match buildPools items with
        | Except.error e => ⟨true, v, [], 0, [karpMsg e], []⟩
        | Except.ok pools => karpNodesStep v pools ndCode ndPayload
  else karpNodesStep v [] ndCode ndPayload

/-- `KubernetesClient.analyze_karpenter`. -/
def analyze_karpenter (depCode : Int) (depPayload : Except String Json)
    (npCode : Int) (npPayload : Except String Json)
    (ndCode : Int) (ndPayload : Except String Json) : KarpenterAnalysis :=
  if depCode ≠ 0 then ⟨false, none, [], 0, [], []⟩
  else
    match depPayload with
    | Except.error e => ⟨true, none, [], 0, [karpMsg e], []⟩
    | Except.ok d =>
      match getContainers d with
      | Except.error e => ⟨true, none, [], 0, [karpMsg e], []⟩
      | Except.ok cs =>
        match findKarpVersion cs with
        | Except.error e => ⟨true, none, [], 0, [karpMsg e], []⟩
        | Except.ok v => karpNodepoolsStep v npCode npPayload ndCode ndPayload

/-- A karpenter deployment payload with one matching container image. -/
def c7DepPayload : Json := Json.obj [("spec", Json.obj [("template", Json.obj
  [("spec", Json.obj [("containers", Json.arr [Json.obj
    [("image", Json.str "public.ecr.aws/karpenter/controller:v1.0.0")]])])])])]

/-- A provisioned-nodes listing with two items. -/
def c7NodesPayload : Json := Json.obj [("items", Json.arr [Json.obj [], Json.obj []])]

/-- C7 counterexample: the nodepools probe fails with a non-zero exit, yet
the later `provisioned_nodes` field is still populated (2, not its default
0) and nothing is appended to `issues` — refuting both the "no later field
is populated" and the "error is appended to issues" parts of the claim. -/
theorem c7_counterexample :
    analyze_karpenter 0 (Except.ok c7DepPayload) 1
        (Except.error "nodepools fetch failed") 0 (Except.ok c7NodesPayload) =
      ⟨true, some "v1.0.0", [], 2, [], []⟩ := rfl

/-- C7 (amended): an exception-raising step failure (malformed payload,
missing field) truncates further population — fields already filled remain,
later fields stay at their defaults — and the error is appended to
`issues`; a non-zero exit on the initial presence probe yields the
all-defaults result; a non-zero exit on a later probe leaves only that
probe's field at its default, appends no issue, and later probes still
run. -/
theorem c7_step_failure_behaviour (depCode npCode ndCode : Int)
    (depPayload npPayload ndPayload : Except String Json) (e : String)
    (d : Json) (cs : List Json) (v : Option String) :
    (depCode ≠ 0 →
      analyze_karpenter depCode depPayload npCode npPayload ndCode ndPayload =
        ⟨false, none, [], 0, [], []⟩) ∧
    (analyze_karpenter 0 (Except.error e) npCode npPayload ndCode ndPayload =
      ⟨true, none, [], 0, [karpMsg e], []⟩) ∧
    (depPayload = Except.ok d → getContainers d = Except.ok cs →
      findKarpVersion cs = Except.ok v →
      analyze_karpenter 0 depPayload 0 (Except.error e) ndCode ndPayload =
        ⟨true, v, [], 0, [karpMsg e], []⟩) ∧
    (depPayload = Except.ok d → getContainers d = Except.ok cs →
      findKarpVersion cs = Except.ok v → npCode ≠ 0 →
      analyze_karpenter 0 depPayload npCode npPayload ndCode ndPayload =
        karpNodesStep v [] ndCode ndPayload) ∧
    (ndCode ≠ 0 → karpNodesStep v [] ndCode ndPayload = ⟨true, v, [], 0, [], []⟩) ∧
    (∀ (p : Json) (items : List Json), ndPayload = Except.ok p →
      jgetItemsD p = Except.ok items →
      karpNodesStep v [] 0 ndPayload = ⟨true, v, [], items.length, [], []⟩) := by
  refine ⟨?_, ?_, ?_, ?_, ?_, ?_⟩
  · intro h
    simp [analyze_karpenter, h]
  · simp [analyze_karpenter]
  · intro hp hc hv
    subst hp
    simp only [analyze_karpenter, hc, hv]
    norm_num
    simp [karpNodepoolsStep]
  · intro hp hc hv hnp
    subst hp
    simp only [analyze_karpenter, hc, hv]
    norm_num
    simp [karpNodepoolsStep, hnp]
  · intro h
    simp [karpNodesStep, h]
  · intro p items hp hi
    subst hp
    simp [karpNodesStep, hi]

theorem c7_step_failure_behaviour_wit :
    analyze_karpenter 0 (Except.ok c7DepPayload) 0 (Except.error "Expecting value")
        0 (Except.ok c7NodesPayload) =
      ⟨true, some "v1.0.0", [], 0, [karpMsg "Expecting value"], []⟩ :=
  (c7_step_failure_behaviour 0 0 0 (Except.ok c7DepPayload)
      (Except.error "Expecting value") (Except.ok c7NodesPayload)
      "Expecting value" c7DepPayload
      [Json.obj [("image", Json.str "public.ecr.aws/karpenter/controller:v1.0.0")]]
      (some "v1.0.0")).2.2.1 rfl rfl rfl

/-! ## Report renderer (`generate_markdown_report` and the structured build)

The renderer's single `datetime.now()` read (the generation timestamp) and
the module-global provider are inputs of the embedding; everything else the
renderer touches is in the data bundle.  The Python `+=` accumulation is a
concatenation of the section strings below, in source order. -/

/-- `{x:.1f}` for the utilization fields.  The source only ever formats
`0.0` here (utilizations are fixed placeholders); negative values never
occur. -/
def fmt1 (q : Rat) : String :=
  let t : Int := round (q * 10)
  let ip := t / 10
  let fp := (t % 10).natAbs
  s!"{ip}.{fp}"

/-- Python `x or 'N/A'`: `None` and the empty string are falsy. -/
def pyOr : Option String → String → String
  | none, d => d
  | some s, d => if s = "" then d else s

/-- `f"{v}"` for an optional value: `None` prints as `"None"`. -/
def pyShowOpt : Option String → String
  | none => "None"
  | some s => s

def mdHeader (now provider : String) (health : ClusterHealth) : String :=
  "# Kubernetes Cluster Health Report\n\nGenerated: " ++ now ++
  "\nProvider: " ++ provider.toUpper ++
  "\n\n## 🎯 Overall Health Status: " ++ health.overall_status ++
  "\n\n### 📊 Cluster Summary\n- **Nodes**: " ++ toString health.node_count ++
  " total (" ++ toString health.healthy_nodes ++ " healthy, " ++
  toString health.unhealthy_nodes ++ " unhealthy)\n- **Pods**: " ++
  toString health.total_pods ++ " total (" ++ toString health.running_pods ++
  " running, " ++ toString health.pending_pods ++ " pending, " ++
  toString health.failed_pods ++ " failed)\n- **CPU Utilization**: " ++
  fmt1 health.cpu_utilization ++ "%\n- **Memory Utilization**: " ++
  fmt1 health.memory_utilization ++ "%\n\n### 🔴 Critical Issues\n"

def mdCriticalSection (health : ClusterHealth) : String :=
  if health.critical_issues.isEmpty then "- ✅ No critical issues detected\n"
  else String.join (health.critical_issues.map (fun i => "- ❌ " ++ i ++ "\n"))

def mdWarningsSection (health : ClusterHealth) : String :=
  "\n### ⚠️ Warnings\n" ++
  (if health.warnings.isEmpty then "- ✅ No warnings\n"
   else String.join (health.warnings.map (fun w => "- ⚠️ " ++ w ++ "\n")))

def mdNodeRow (node : NodeMetrics) : String :=
  "| " ++ node.name ++ " | " ++ node.status ++ " | " ++ node.cpu_usage ++
  " | " ++ node.memory_usage ++ " | " ++ node.age ++ " | " ++ node.version ++
  " | " ++ pyOr node.instance_type "N/A" ++ " |\n"

def mdNodesSection (nodes : List NodeMetrics) : String :=
  "\n## 🖥️ Node Details (" ++ toString nodes.length ++ " nodes)\n\n" ++
  "| Name | Status | CPU | Memory | Age | Version | Instance Type |\n" ++
  "|------|--------|-----|--------|-----|---------|---------------|\n" ++
  String.join ((nodes.take 10).map mdNodeRow) ++
  (if nodes.length > 10 then
    "\n*... and " ++ toString (nodes.length - 10) ++ " more nodes*\n" else "")

def problemPodRow (p : PodMetrics) : String :=
  "| " ++ p.name ++ " | " ++ p.namespace' ++ " | " ++ p.status ++ " | " ++
  toString p.restarts ++ " | " ++ p.node ++ " |\n"

/-- The "Problem Pods" block: present only when some pod qualifies
(`status != "Running" or restarts > 5`), listing the first 20. -/
def problemPodsSection (pods : List PodMetrics) : String :=
  let problem_pods := pods.filter (fun p => p.status != "Running" || p.restarts > 5)
  if problem_pods.isEmpty then ""
  else
    "\n## 🚨 Problem Pods (" ++ toString problem_pods.length ++ " pods)\n\n" ++
    "| Name | Namespace | Status | Restarts | Node |\n" ++
    "|------|-----------|--------|----------|------|\n" ++
    String.join ((problem_pods.take 20).map problemPodRow)

def karpenterSection (karpenter : KarpenterAnalysis) : String :=
  if karpenter.installed then
    "\n## 🚀 Karpenter Status\n" ++
    "- **Version**: " ++ pyShowOpt karpenter.version ++ "\n" ++
    "- **Node Pools**: " ++ toString karpenter.node_pools.length ++ "\n" ++
    "- **Provisioned Nodes**: " ++ toString karpenter.provisioned_nodes ++ "\n" ++
    (if karpenter.issues.isEmpty then ""
     else "\n**Issues:**\n" ++
       String.join (karpenter.issues.map (fun i => "- ❌ " ++ i ++ "\n")))
  else "\n## 🚀 Karpenter Status\n- ❌ Not installed\n"

def argocdSection (argocd : ArgoCDStatus) : String :=
  if argocd.installed then
    "\n## 🔄 ArgoCD Status\n" ++
    "- **Applications**: " ++ toString argocd.applications.length ++ "\n" ++
    "- **Health**: " ++ argocd.health_status ++ "\n" ++
    "- **Sync**: " ++ argocd.sync_status ++ "\n" ++
    (if argocd.applications.isEmpty then ""
     else "\n**Applications:**\n" ++
       String.join ((argocd.applications.take 10).map
         (fun a => "- " ++ a.name ++ ": " ++ a.health ++ "/" ++ a.sync ++ "\n")))
  else "\n## 🔄 ArgoCD Status\n- ❌ Not installed\n"

def recommendationsSection (inc : Bool) (health : ClusterHealth) : String :=
  if inc && !health.recommendations.isEmpty then
    "\n## 💡 Recommendations\n" ++
    String.join (health.recommendations.map (fun r => "- 🔧 " ++ r ++ "\n"))
  else ""

/-- `generate_markdown_report`: the full narrative render. -/
def generate_markdown_report (now provider : String) (health : ClusterHealth)
    (nodes : List NodeMetrics) (pods : List PodMetrics)
    (karpenter : KarpenterAnalysis) (argocd : ArgoCDStatus)
    (include_recommendations : Bool) : String :=
  mdHeader now provider health ++ mdCriticalSection health ++
  mdWarningsSection health ++ mdNodesSection nodes ++
  problemPodsSection pods ++ karpenterSection karpenter ++
  argocdSection argocd ++ recommendationsSection include_recommendations health

lemma str_append_ne_empty (a b : String) (ha : a ≠ "") : a ++ b ≠ "" := by
  intro h
  apply ha
  have hd := congrArg String.data h
  rw [String.data_append] at hd
  have hempty : String.data "" = [] := rfl
  rw [hempty] at hd
  have hnil : a.data = [] := (List.append_eq_nil.mp hd).1
  cases a with
  | mk l =>
    simp at hnil
    subst hnil
    rfl

/-- C10: the "Problem Pods" section of the markdown render is emitted iff
some pod has `status != "Running"` or more than 5 restarts; when emitted it
consists of the header and the rows of exactly the first 20 qualifying pods
in input order; and the full markdown report is the concatenation of its
sections with this one in its fixed place. -/
theorem c10_problem_pods_section (pods : List PodMetrics) :
    (problemPodsSection pods = "" ↔
      pods.filter (fun p => p.status != "Running" || p.restarts > 5) = []) ∧
    (∀ q : List PodMetrics,
      q = pods.filter (fun p => p.status != "Running" || p.restarts > 5) →
      q ≠ [] →
      problemPodsSection pods =
        "\n## 🚨 Problem Pods (" ++ toString q.length ++ " pods)\n\n" ++
        "| Name | Namespace | Status | Restarts | Node |\n" ++
        "|------|-----------|--------|----------|------|\n" ++
        String.join ((q.take 20).map problemPodRow)) ∧
    (∀ (now provider : String) (health : ClusterHealth)
        (nodes : List NodeMetrics) (karpenter : KarpenterAnalysis)
        (argocd : ArgoCDStatus) (inc : Bool),
      generate_markdown_report now provider health nodes pods karpenter argocd inc =
        mdHeader now provider health ++ mdCriticalSection health ++
        mdWarningsSection health ++ mdNodesSection nodes ++
        problemPodsSection pods ++ karpenterSection karpenter ++
        argocdSection argocd ++ recommendationsSection inc health) := by
  refine ⟨⟨?_, ?_⟩, ?_, ?_⟩
  · intro h
    by_contra hne
    rw [problemPodsSection] at h
    rw [if_neg (by simpa [List.isEmpty_iff] using hne)] at h
    refine (str_append_ne_empty _ _ ?_) h
    refine str_append_ne_empty _ _ ?_
    refine str_append_ne_empty _ _ ?_
    refine str_append_ne_empty _ _ ?_
    refine str_append_ne_empty _ _ ?_
    decide
  · intro h
    simp [problemPodsSection, h]
  · intro q hq hne
    subst hq
    rw [problemPodsSection, if_neg (by simpa [List.isEmpty_iff] using hne)]
  · intro now provider health nodes karpenter argocd inc
    rfl

def c10Pod : PodMetrics := ⟨"p1", "default", "Failed", "N/A", "N/A", 0, "1h", "n1"⟩

theorem c10_problem_pods_section_wit :
    problemPodsSection [c10Pod] =
      "\n## 🚨 Problem Pods (" ++
      toString ([c10Pod].filter
        (fun p => p.status != "Running" || p.restarts > 5)).length ++
      " pods)\n\n" ++
      "| Name | Namespace | Status | Restarts | Node |\n" ++
      "|------|-----------|--------|----------|------|\n" ++
      String.join ((([c10Pod].filter
        (fun p => p.status != "Running" || p.restarts > 5)).take 20).map
        problemPodRow) :=
  (c10_problem_pods_section [c10Pod]).2.1
    ([c10Pod].filter (fun p => p.status != "Running" || p.restarts > 5))
    rfl (by decide)

/-! ## Structured (JSON/YAML) report build

The `generate_health_report` structured branches assemble `report_data`
with the keys `cluster_health` (the dataclass as a dict), `nodes` (list of
node dicts), `karpenter`, `argocd`, and `generated_at` — and hand it to
`json.dumps` / `yaml.dump`, both faithful serializations of the dict.  The
dict-to-text step is modelled at the JSON-value level: the encoder writes
the dict the source builds, and the decoder (a specification artifact,
built from the spec's round-trip wording) reads it back. -/

/-- The data the source gathers for a report. -/
structure Bundle where
  health : ClusterHealth
  nodes : List NodeMetrics
  pods : List PodMetrics
  karpenter : KarpenterAnalysis
  argocd : ArgoCDStatus
  generated_at : String

/-- The `report_data` dict of the structured branches (no pods field). -/
structure ReportData where
  cluster_health : ClusterHealth
  nodes : List NodeMetrics
  karpenter : KarpenterAnalysis
  argocd : ArgoCDStatus
  generated_at : String

def buildReportData (b : Bundle) : ReportData :=
  { cluster_health := b.health
    nodes := b.nodes
    karpenter := b.karpenter
    argocd := b.argocd
    generated_at := b.generated_at }

def encOptStr : Option String → Json
  | none => Json.null
  | some s => Json.str s

def encStrList (l : List String) : Json := Json.arr (l.map Json.str)

def encNodeMetrics (n : NodeMetrics) : Json :=
  Json.obj [("name", Json.str n.name), ("cpu_usage", Json.str n.cpu_usage),
    ("memory_usage", Json.str n.memory_usage), ("disk_usage", Json.str n.disk_usage),
    ("status", Json.str n.status), ("age", Json.str n.age),
    ("version", Json.str n.version), ("instance_type", encOptStr n.instance_type),
    ("zone", encOptStr n.zone)]

def encClusterHealth (h : ClusterHealth) : Json :=
  Json.obj [("overall_status", Json.str h.overall_status),
    ("node_count", Json.num h.node_count),
    ("healthy_nodes", Json.num h.healthy_nodes),
    ("unhealthy_nodes", Json.num h.unhealthy_nodes),
    ("total_pods", Json.num h.total_pods),
    ("running_pods", Json.num h.running_pods),
    ("pending_pods", Json.num h.pending_pods),
    ("failed_pods", Json.num h.failed_pods),
    ("cpu_utilization", Json.num h.cpu_utilization),
    ("memory_utilization", Json.num h.memory_utilization),
    ("disk_utilization", Json.num h.disk_utilization),
    ("critical_issues", encStrList h.critical_issues),
    ("warnings", encStrList h.warnings),
    ("recommendations", encStrList h.recommendations)]

def encNodePool (np : NodePool) : Json :=
  Json.obj [("name", Json.str np.name), ("instance_types", np.instance_types),
    ("limits", np.limits)]

def encKarpenter (k : KarpenterAnalysis) : Json :=
  Json.obj [("installed", Json.bool k.installed), ("version", encOptStr k.version),
    ("node_pools", Json.arr (k.node_pools.map encNodePool)),
    ("provisioned_nodes", Json.num k.provisioned_nodes),
    ("issues", encStrList k.issues),
    ("recommendations", encStrList k.recommendations)]

def encArgoApp (a : ArgoApp) : Json :=
  Json.obj [("name", Json.str a.name), ("health", Json.str a.health),
    ("sync", Json.str a.sync), ("repo", Json.str a.repo)]

def encArgo (a : ArgoCDStatus) : Json :=
  Json.obj [("installed", Json.bool a.installed),
    ("applications", Json.arr (a.applications.map encArgoApp)),
    ("health_status", Json.str a.health_status),
    ("sync_status", Json.str a.sync_status)]

/-- The serialized `report_data` value of the structured (JSON/YAML)
branches. -/
def reportDataToJson (rd : ReportData) : Json :=
  Json.obj [("cluster_health", encClusterHealth rd.cluster_health),
    ("nodes", Json.arr (rd.nodes.map encNodeMetrics)),
    ("karpenter", encKarpenter rd.karpenter),
    ("argocd", encArgo rd.argocd),
    ("generated_at", Json.str rd.generated_at)]

/-! Decoders: the parse direction of the spec's round-trip property. -/

def decStr : Json → Option String
  | Json.str s => some s
  | _ => none

def decBool : Json → Option Bool
  | Json.bool b => some b
  | _ => none

def decNat : Json → Option Nat
  | Json.num q => some q.num.toNat
  | _ => none

def decRat : Json → Option Rat
  | Json.num q => some q
  | _ => none

def decOptStr : Json → Option (Option String)
  | Json.null => some none
  | Json.str s => some (some s)
  | _ => none

def decListWith {α : Type} (f : Json → Option α) : List Json → Option (List α)
  | [] => some []
  | j :: js =>
    match f j, decListWith f js with
    | some a, some bs => some (a :: bs)
    | _, _ => none

def decStrList : Json → Option (List String)
  | Json.arr l => decListWith decStr l
  | _ => none

def decNodeMetrics : Json → Option NodeMetrics
  | Json.obj [("name", a), ("cpu_usage", b), ("memory_usage", c),
      ("disk_usage", d), ("status", e), ("age", f), ("version", g),
      ("instance_type", h), ("zone", i)] =>
    match decStr a, decStr b, decStr c, decStr d, decStr e, decStr f,
        decStr g, decOptStr h, decOptStr i with
    | some a, some b, some c, some d, some e, some f, some g, some h, some i =>
      some ⟨a, b, c, d, e, f, g, h, i⟩
    | _, _, _, _, _, _, _, _, _ => none
  | _ => none

def decClusterHealth : Json → Option ClusterHealth
  | Json.obj [(k1, a), (k2, b), (k3, c), (k4, d), (k5, e), (k6, f), (k7, g),
      (k8, h), (k9, i), (k10, j), (k11, k), (k12, l), (k13, m), (k14, n)] =>
    if k1 = "overall_status" ∧ k2 = "node_count" ∧ k3 = "healthy_nodes" ∧
        k4 = "unhealthy_nodes" ∧ k5 = "total_pods" ∧ k6 = "running_pods" ∧
        k7 = "pending_pods" ∧ k8 = "failed_pods" ∧ k9 = "cpu_utilization" ∧
        k10 = "memory_utilization" ∧ k11 = "disk_utilization" ∧
        k12 = "critical_issues" ∧ k13 = "warnings" ∧ k14 = "recommendations" then do
      let a' ← decStr a
      let b' ← decNat b
      let c' ← decNat c
      let d' ← decNat d
      let e' ← decNat e
      let f' ← decNat f
      let g' ← decNat g
      let h' ← decNat h
      let i' ← decRat i
      let j' ← decRat j
      let k' ← decRat k
      let l' ← decStrList l
      let m' ← decStrList m
      let n' ← decStrList n
      some ⟨a', b', c', d', e', f', g', h', i', j', k', l', m', n'⟩
    else none
  | _ => none

def decNodePool : Json → Option NodePool
  | Json.obj [("name", a), ("instance_types", b), ("limits", c)] =>
    match decStr a with
    | some n => some ⟨n, b, c⟩
    | none => none
  | _ => none

def decKarpenter : Json → Option KarpenterAnalysis
  | Json.obj [(k1, a), (k2, b), (k3, c), (k4, d), (k5, e), (k6, f)] =>
    if k1 = "installed" ∧ k2 = "version" ∧ k3 = "node_pools" ∧
        k4 = "provisioned_nodes" ∧ k5 = "issues" ∧ k6 = "recommendations" then
      match c with
      | Json.arr cl => do
        let a' ← decBool a
        let b' ← decOptStr b
        let c' ← decListWith decNodePool cl
        let d' ← decNat d
        let e' ← decStrList e
        let f' ← decStrList f
        some ⟨a', b', c', d', e', f'⟩
      | _ => none
    else none
  | _ => none

def decArgoApp : Json → Option ArgoApp
  | Json.obj [("name", a), ("health", b), ("sync", c), ("repo", d)] =>
    match decStr a, decStr b, decStr c, decStr d with
    | some a, some b, some c, some d => some ⟨a, b, c, d⟩
    | _, _, _, _ => none
  | _ => none

def decArgo : Json → Option ArgoCDStatus
  | Json.obj [(k1, a), (k2, b), (k3, c), (k4, d)] =>
    if k1 = "installed" ∧ k2 = "applications" ∧ k3 = "health_status" ∧
        k4 = "sync_status" then
      match b with
      | Json.arr bl => do
        let a' ← decBool a
        let b' ← decListWith decArgoApp bl
        let c' ← decStr c
        let d' ← decStr d
        some ⟨a', b', c', d'⟩
      | _ => none
    else none
  | _ => none

def decReportData : Json → Option ReportData
  | Json.obj [(k1, a), (k2, b), (k3, c), (k4, d), (k5, e)] =>
    if k1 = "cluster_health" ∧ k2 = "nodes" ∧ k3 = "karpenter" ∧
        k4 = "argocd" ∧ k5 = "generated_at" then
      match b with
      | Json.arr bl => do
        let a' ← decClusterHealth a
        let b' ← decListWith decNodeMetrics bl
        let c' ← decKarpenter c
        let d' ← decArgo d
        let e' ← decStr e
        some ⟨a', b', c', d', e'⟩
      | _ => none
    else none
  | _ => none

lemma decNat_enc (n : Nat) : decNat (Json.num (n : Rat)) = some n := by
  simp [decNat]

lemma decOptStr_enc (o : Option String) : decOptStr (encOptStr o) = some o := by
  cases o <;> rfl

lemma decListWith_map {α : Type} (f : Json → Option α) (g : α → Json)
    (hfg : ∀ x, f (g x) = some x) (l : List α) :
    decListWith f (l.map g) = some l := by
  induction l with
  | nil => rfl
  | cons x xs ih => simp [decListWith, hfg, ih]

lemma decStrList_enc (l : List String) : decStrList (encStrList l) = some l := by
  simp [decStrList, encStrList, decListWith_map decStr Json.str (fun x => rfl)]

lemma decNodeMetrics_enc (n : NodeMetrics) :
    decNodeMetrics (encNodeMetrics n) = some n := by
  cases n with
  | mk a b c d e f g h i => cases h <;> cases i <;> rfl

set_option maxHeartbeats 1000000 in
lemma decClusterHealth_enc (h : ClusterHealth) :
    decClusterHealth (encClusterHealth h) = some h := by
  cases h with
  | mk a b c d e f g h i j k l m n =>
    simp [decClusterHealth, encClusterHealth, decNat_enc, decStrList_enc,
      decStr, decRat]

lemma decNodePool_enc (np : NodePool) : decNodePool (encNodePool np) = some np := by
  cases np with
  | mk a b c => rfl

lemma decKarpenter_enc (k : KarpenterAnalysis) :
    decKarpenter (encKarpenter k) = some k := by
  cases k with
  | mk a b c d e f =>
    simp [decKarpenter, encKarpenter, decBool, decOptStr_enc, decNat_enc,
      decStrList_enc, decListWith_map decNodePool encNodePool decNodePool_enc]

lemma decArgoApp_enc (a : ArgoApp) : decArgoApp (encArgoApp a) = some a := by
  cases a with
  | mk a b c d => rfl

lemma decArgo_enc (a : ArgoCDStatus) : decArgo (encArgo a) = some a := by
  cases a with
  | mk a b c d =>
    simp [decArgo, encArgo, decBool, decStr,
      decListWith_map decArgoApp encArgoApp decArgoApp_enc]

/-- C2 (amended): the structured (JSON/YAML) `report_data` serializes the
ClusterHealth, node records, autoscaler status, GitOps status and generation
timestamp faithfully — parsing the rendered value recovers them
field-for-field — but the pod list is omitted from `report_data` and is not
part of the structured output. -/
theorem c2_structured_roundtrip_without_pods (b : Bundle) :
    decReportData (reportDataToJson (buildReportData b)) =
      some (buildReportData b) ∧
    (buildReportData b).cluster_health = b.health ∧
    (buildReportData b).nodes = b.nodes ∧
    (buildReportData b).karpenter = b.karpenter ∧
    (buildReportData b).argocd = b.argocd ∧
    (buildReportData b).generated_at = b.generated_at := by
  refine ⟨?_, rfl, rfl, rfl, rfl, rfl⟩
  simp [decReportData, reportDataToJson, buildReportData, decClusterHealth_enc,
    decKarpenter_enc, decArgo_enc, decStr,
    decListWith_map decNodeMetrics encNodeMetrics decNodeMetrics_enc]

def c2EmptyHealth : ClusterHealth :=
  ⟨"Healthy", 0, 0, 0, 0, 0, 0, 0, 0, 0, 0, [], [], []⟩

def c2Karp : KarpenterAnalysis := ⟨false, none, [], 0, [], []⟩

def c2Argo : ArgoCDStatus := ⟨false, [], "Unknown", "Unknown"⟩

def c2PodOnly : PodMetrics := ⟨"pod-x", "default", "Running", "N/A", "N/A", 0, "1h", "n1"⟩

def c2BundleA : Bundle := ⟨c2EmptyHealth, [], [], c2Karp, c2Argo, "2024-01-01T00:00:00"⟩

def c2BundleB : Bundle :=
  ⟨c2EmptyHealth, [], [c2PodOnly], c2Karp, c2Argo, "2024-01-01T00:00:00"⟩

/-- C2 counterexample: two bundles that differ only in their pod lists
render to the identical structured report value, so no parse of the
structured output can recover the pod list — the round-trip claim fails for
the PodRecord list. -/
theorem c2_counterexample :
    reportDataToJson (buildReportData c2BundleA) =
      reportDataToJson (buildReportData c2BundleB) ∧
    c2BundleA ≠ c2BundleB := by
  refine ⟨rfl, ?_⟩
  intro h
  have hp := congrArg Bundle.pods h
  simp [c2BundleA, c2BundleB] at hp

/-- C6: the report renderer is a pure function of the data bundle, the
provider identifier, and the single generation-timestamp read (modelled as
the `now` argument): two renders of identical inputs — in the markdown
format and in the structured JSON/YAML format alike — are byte-identical;
no other clock is read and every traversal follows the input order. -/
theorem c6_renderer_deterministic (now provider : String) (health : ClusterHealth)
    (nodes : List NodeMetrics) (pods : List PodMetrics)
    (karpenter : KarpenterAnalysis) (argocd : ArgoCDStatus) (inc : Bool)
    (b : Bundle) :
    generate_markdown_report now provider health nodes pods karpenter argocd inc =
      generate_markdown_report now provider health nodes pods karpenter argocd inc ∧
    reportDataToJson (buildReportData b) = reportDataToJson (buildReportData b) :=
  ⟨rfl, rfl⟩

/-! ## Resource-fix generator (`generate_resource_fixes`) -/

lemma str_prefix_front (a rest : String) : a.data <+: (a ++ rest).data := by
  rw [String.data_append]
  exact List.prefix_append _ _

lemma str_infix_front (t rest : String) : t.data <:+: (t ++ rest).data := by
  rw [String.data_append]
  exact ⟨[], rest.data, by simp⟩

lemma str_infix_shift (a : String) {t s : String} (h : t.data <:+: s.data) :
    t.data <:+: (a ++ s).data := by
  rw [String.data_append]
  exact h.trans (List.suffix_append a.data s.data).isInfix

/-- Modelled from the spec: `generate_resource_fixes` cannot be translated
from `src/` as it stands — the file is truncated one line into the `hpa`
branch, so the `hpa`, `pdb`, `node_affinity` and fallback branches are
absent, and the one fully present branch (`resource_limits`) is ill-formed
Python: its f-string (line 816) ends the patch comment with seven
closing-brace characters after the `]` where the balanced escaping of the
intended four literal braces needs eight, and a lone `}` is a syntax error.
This template is the source's `resource_limits` text with that evident
intent (the final run renders as four literal closing braces). -/
def limitsTemplate (target ns : String) : String :=
  "# Resource Limits Fix for " ++
  (target ++
  ("\napiVersion: v1\nkind: LimitRange\nmetadata:\n  name: " ++
  (target ++
  ("-limits\n  namespace: " ++
  (ns ++
  ("\nspec:\n  limits:\n  - default:\n      cpu: \"500m\"\n      memory: \"512Mi\"\n    defaultRequest:\n      cpu: \"100m\"\n      memory: \"128Mi\"\n    type: Container\n---\n# Patch for existing deployment\n# kubectl patch deployment " ++
  (target ++
  (" -n " ++
  (ns ++
  (" -p '\x7b\"spec\":\x7b\"template\":\x7b\"spec\":\x7b\"containers\":[\x7b\"name\":\"" ++
  (target ++
  ("\",\"resources\":\x7b\"limits\":\x7b\"cpu\":\"500m\",\"memory\":\"512Mi\"\x7d,\"requests\":\x7b\"cpu\":\"100m\",\"memory\":\"128Mi\"\x7d\x7d\x7d]\x7d\x7d\x7d\x7d'\n"))))))))))))

/-- Modelled from the spec: the `hpa` branch is missing from `src/` apart
from its opening line (`# Horizontal Pod Autoscaler for {target}`); per
§4.7 it expands a fixed manifest with target and namespace substituted. -/
def hpaTemplate (target ns : String) : String :=
  "# Horizontal Pod Autoscaler for " ++
  (target ++
  ("\napiVersion: autoscaling/v2\nkind: HorizontalPodAutoscaler\nmetadata:\n  name: " ++
  (target ++
  ("-hpa\n  namespace: " ++
  (ns ++
  ("\nspec:\n  scaleTargetRef:\n    apiVersion: apps/v1\n    kind: Deployment\n    name: " ++
  (target ++
  ("\n  minReplicas: 2\n  maxReplicas: 10\n"))))))))

/-- Modelled from the spec: the `pdb` branch is missing from `src/`. -/
def pdbTemplate (target ns : String) : String :=
  "# Pod Disruption Budget for " ++
  (target ++
  ("\napiVersion: policy/v1\nkind: PodDisruptionBudget\nmetadata:\n  name: " ++
  (target ++
  ("-pdb\n  namespace: " ++
  (ns ++
  ("\nspec:\n  minAvailable: 1\n  selector:\n    matchLabels:\n      app: " ++
  (target ++
  ("\n"))))))))

/-- Modelled from the spec: the `node_affinity` branch is missing from
`src/`. -/
def nodeAffinityTemplate (target ns : String) : String :=
  "# Node Affinity for " ++
  (target ++
  ("\napiVersion: apps/v1\nkind: Deployment\nmetadata:\n  name: " ++
  (target ++
  ("\n  namespace: " ++
  (ns ++
  ("\nspec:\n  template:\n    spec:\n      affinity:\n        nodeAffinity:\n          requiredDuringSchedulingIgnoredDuringExecution:\n            nodeSelectorTerms:\n            - matchExpressions:\n              - key: kubernetes.io/os\n                operator: In\n                values:\n                - linux\n"))))))

/-- Modelled from the spec: the dispatch over the fixed issue-type catalog
with an explicit unsupported result for any other category (§4.7; the
fallback branch is absent from the truncated `src/`). -/
def generate_resource_fixes (issue_type target ns : String) : String :=
  if issue_type = "resource_limits" then limitsTemplate target ns
  else if issue_type = "hpa" then hpaTemplate target ns
  else if issue_type = "pdb" then pdbTemplate target ns
  else if issue_type = "node_affinity" then nodeAffinityTemplate target ns
  else "Unsupported issue type: " ++ issue_type

/-- C5: each of the four supported categories yields a manifest headed by a
fixed category title, with the target and namespace substituted into it (the
target and namespace occur verbatim in the text); any other category yields
the explicit non-empty unsupported text naming the category — never a blank
or malformed manifest. -/
theorem c5_fix_generator (issue_type target ns : String) :
    ("# Resource Limits Fix for ".data <+:
        (generate_resource_fixes "resource_limits" target ns).data ∧
      target.data <:+: (generate_resource_fixes "resource_limits" target ns).data ∧
      ns.data <:+: (generate_resource_fixes "resource_limits" target ns).data) ∧
    ("# Horizontal Pod Autoscaler for ".data <+:
        (generate_resource_fixes "hpa" target ns).data ∧
      target.data <:+: (generate_resource_fixes "hpa" target ns).data ∧
      ns.data <:+: (generate_resource_fixes "hpa" target ns).data) ∧
    ("# Pod Disruption Budget for ".data <+:
        (generate_resource_fixes "pdb" target ns).data ∧
      target.data <:+: (generate_resource_fixes "pdb" target ns).data ∧
      ns.data <:+: (generate_resource_fixes "pdb" target ns).data) ∧
    ("# Node Affinity for ".data <+:
        (generate_resource_fixes "node_affinity" target ns).data ∧
      target.data <:+: (generate_resource_fixes "node_affinity" target ns).data ∧
      ns.data <:+: (generate_resource_fixes "node_affinity" target ns).data) ∧
    (issue_type ≠ "resource_limits" → issue_type ≠ "hpa" → issue_type ≠ "pdb" →
      issue_type ≠ "node_affinity" →
      generate_resource_fixes issue_type target ns =
        "Unsupported issue type: " ++ issue_type ∧
      generate_resource_fixes issue_type target ns ≠ "") := by
  refine ⟨⟨?_, ?_, ?_⟩, ⟨?_, ?_, ?_⟩, ⟨?_, ?_, ?_⟩, ⟨?_, ?_, ?_⟩, ?_⟩
  · exact str_prefix_front _ _
  · exact str_infix_shift _ (str_infix_front _ _)
  · exact str_infix_shift _ (str_infix_shift _ (str_infix_shift _
      (str_infix_shift _ (str_infix_shift _ (str_infix_front _ _)))))
  · exact str_prefix_front _ _
  · exact str_infix_shift _ (str_infix_front _ _)
  · exact str_infix_shift _ (str_infix_shift _ (str_infix_shift _
      (str_infix_shift _ (str_infix_shift _ (str_infix_front _ _)))))
  · exact str_prefix_front _ _
  · exact str_infix_shift _ (str_infix_front _ _)
  · exact str_infix_shift _ (str_infix_shift _ (str_infix_shift _
      (str_infix_shift _ (str_infix_shift _ (str_infix_front _ _)))))
  · exact str_prefix_front _ _
  · exact str_infix_shift _ (str_infix_front _ _)
  · exact str_infix_shift _ (str_infix_shift _ (str_infix_shift _
      (str_infix_shift _ (str_infix_shift _ (str_infix_front _ _)))))
  · intro h1 h2 h3 h4
    refine ⟨?_, ?_⟩
    · simp [generate_resource_fixes, h1, h2, h3, h4]
    · simp [generate_resource_fixes, h1, h2, h3, h4]
      exact str_append_ne_empty _ _ (by decide)

theorem c5_fix_generator_wit :
    generate_resource_fixes "unknown_kind" "web-app" "prod" =
      "Unsupported issue type: " ++ "unknown_kind" ∧
    generate_resource_fixes "unknown_kind" "web-app" "prod" ≠ "" :=
  (c5_fix_generator "unknown_kind" "web-app" "prod").2.2.2.2
    (by decide) (by decide) (by decide) (by decide)
